import Mathlib

/-!
Shallow embedding of the portfolio dashboard in `app.py`.

The program is a single-file streamlit/pandas app.  Its only logic is the
CSV cleaning pipeline `load_data`, the session-state update performed by the
"Load Portfolio Data" button handler, and the filter/KPI computation of the
dashboard body.  We embed those here:

* a parsed CSV is a header list plus rows of optional string cells
  (a `none` cell is a pandas NaN / empty field);
* numeric values are modelled by `ℚ` (pandas float64), null by `Option`;
* `parseNum` models `pd.to_numeric(…, errors=\x27coerce\x27)` on plain decimal
  strings, and `stripSymbols` models `.str.replace(r\x27[$,%]\x27, \x27\x27, regex=True)`;
* pandas column sums (`Series.sum`, which skips NaN and returns 0 on empty
  input) are modelled by summing `Option.getD 0` over a row list.
-/

namespace Portfolio

/-- The seven columns converted with `pd.to_numeric` in `load_data`. -/
def numeric_cols : List String :=
  ["Shares", "Cost of Shares", "Current Price of Shares",
   "Capital Input", "Current Value", "% change", "P/L"]

/-- All thirteen required columns checked by `load_data`. -/
def all_expected_cols : List String :=
  ["Account", "Ticker", "Tag", "Name", "Type", "Action"] ++ numeric_cols

/-- The six currency/percentage columns whose `$`, `,`, `%` symbols are
stripped before numeric conversion (`cols_to_clean` in the source; note that
`Shares` is not among them). -/
def cols_to_clean : List String :=
  ["Cost of Shares", "Current Price of Shares", "Capital Input",
   "Current Value", "P/L", "% change"]

/-- The five columns zero-filled on cash rows (`cols_to_zero_for_cash`). -/
def cols_to_zero_for_cash : List String :=
  ["Shares", "Cost of Shares", "Current Price of Shares", "% change", "P/L"]

/-- Uppercasing of a string, modelling pandas `.str.upper()`. -/
def upper (s : String) : String :=
  String.mk (s.toList.map Char.toUpper)

/-- Removal of the characters `$`, `,`, `%`, modelling
`.str.replace(r\x27[$,%]\x27, \x27\x27, regex=True)`. -/
def stripSymbols (s : String) : String :=
  String.mk (s.toList.filter (fun c => !(c == '$' || c == ',' || c == '%')))

/-- Digits of a character list read as a natural number (base 10). -/
def readNat (l : List Char) : ℕ :=
  l.foldl (fun acc c => 10 * acc + (c.toNat - 48)) 0

/-- Numeric coercion of a cell string, modelling
`pd.to_numeric(…, errors=\x27coerce\x27)` on plain decimal notation: optional
surrounding spaces, an optional sign, digits with an optional decimal point.
Anything else (in particular the empty string) coerces to null. -/
def parseNum (s : String) : Option ℚ :=
  let cs := ((s.toList.dropWhile (fun c => c == ' ')).reverse.dropWhile
      (fun c => c == ' ')).reverse
  let signed : ℚ × List Char :=
    match cs with
    | c :: r =>
      if c == '-' then (-1, r) else if c == '+' then (1, r) else (1, c :: r)
    | [] => (1, [])
  let sign := signed.1
  let rest := signed.2
  let intPart := rest.takeWhile Char.isDigit
  let rest2 := rest.drop intPart.length
  match rest2 with
  | [] => if intPart.isEmpty then none else some (sign * readNat intPart)
  | c :: frac =>
    if c == '.' && frac.all Char.isDigit
        && !(intPart.isEmpty && frac.isEmpty) then
      some (sign * ((readNat intPart : ℚ)
        + (readNat frac : ℚ) / (10 : ℚ) ^ frac.length))
    else none

/-- A parsed CSV: the header row and the data rows, one optional string per
cell (`none` is an empty cell, which pandas reads as NaN). -/
structure Csv where
  headers : List String
  rows : List (List (Option String))
  deriving DecidableEq

/-- Cell of a row under a column name: position of the name in the header
row, `none` when the column is absent or the row is too short (pandas pads
short rows with NaN). -/
def getCell (headers : List String) (cells : List (Option String))
    (c : String) : Option String :=
  match headers.findIdx? (fun h => h == c) with
  | some i => (cells.get? i).join
  | none => none

/-- Numeric coercion of one cell of a named column: symbol stripping first
for the columns in `cols_to_clean`, then `parseNum`.  (In the source a NaN
cell becomes the string "nan" under `astype(str)` and then coerces back to
NaN; here it stays `none` throughout, which is the same value.) -/
def cleanNumCell (colName : String) (cell : Option String) : Option ℚ :=
  if cols_to_clean.contains colName then
    cell.bind (fun s => parseNum (stripSymbols s))
  else
    cell.bind parseNum

/-- The null-safe case-insensitive cash test
`df[\x27Type\x27].str.upper().fillna(\x27\x27) == \x27CASH\x27`. -/
def is_cash_type (t : Option String) : Bool :=
  ((t.map upper).getD "") == "CASH"

/-- Zero-fill applied to the five `cols_to_zero_for_cash` on cash rows:
`df.loc[cash_mask, col] = df.loc[cash_mask, col].fillna(0)`. -/
def zero_fill (cash : Bool) (v : Option ℚ) : Option ℚ :=
  if cash then some (v.getD 0) else v

/-- A row of the cleaned table produced by `load_data`: string columns as
read (with `Account` and `Type` backfilled by "Unknown"), the seven numeric
columns coerced to nullable rationals. -/
structure CleanedRow where
  account : String
  ticker : Option String
  tag : Option String
  name : Option String
  type : String
  action : Option String
  shares : Option ℚ
  costOfShares : Option ℚ
  currentPriceOfShares : Option ℚ
  capitalInput : Option ℚ
  currentValue : Option ℚ
  pctChange : Option ℚ
  profitLoss : Option ℚ
  deriving DecidableEq

/-- Per-row cleaning of `load_data` lines 49-73: strip symbols, coerce to
numeric, zero-fill the five cash columns when `Type` is (case-insensitively,
null-safely) "CASH", and backfill `Account` and `Type` with "Unknown". -/
def cleanRow (headers : List String) (cells : List (Option String)) :
    CleanedRow :=
  let cell := fun c => getCell headers cells c
  let cash := is_cash_type (cell "Type")
  { account := (cell "Account").getD "Unknown"
  , ticker := cell "Ticker"
  , tag := cell "Tag"
  , name := cell "Name"
  , type := (cell "Type").getD "Unknown"
  , action := cell "Action"
  , shares := zero_fill cash (cleanNumCell "Shares" (cell "Shares"))
  , costOfShares :=
      zero_fill cash (cleanNumCell "Cost of Shares" (cell "Cost of Shares"))
  , currentPriceOfShares :=
      zero_fill cash
        (cleanNumCell "Current Price of Shares"
          (cell "Current Price of Shares"))
  , capitalInput := cleanNumCell "Capital Input" (cell "Capital Input")
  , currentValue := cleanNumCell "Current Value" (cell "Current Value")
  , pctChange := zero_fill cash (cleanNumCell "% change" (cell "% change"))
  , profitLoss := zero_fill cash (cleanNumCell "P/L" (cell "P/L"))
  }

/-- The failure conditions `load_data` reports through `st.error` before
returning an empty table: the fetch/parse exception of the `except` branch,
the empty-sheet check, and the missing-columns check. -/
inductive LoadError where
  | fetch_failure
  | empty_source
  | missing_columns (cols : List String)
  deriving DecidableEq

/-- The function `load_data` (lines 21-83).  Input `none` is a fetch/parse
exception raised by `pd.read_csv`.  The returned pair is the DataFrame the
source returns (empty on every failure) together with the error it displays,
if any. -/
def load_data (input : Option Csv) : List CleanedRow × Option LoadError :=
  match input with
  | none => ([], some LoadError.fetch_failure)
  | some csv =>
    if csv.rows.isEmpty then ([], some LoadError.empty_source)
    else
      let missing_cols :=
        all_expected_cols.filter (fun c => !csv.headers.contains c)
      if missing_cols.isEmpty then
        ((csv.rows.map (cleanRow csv.headers)).filter
          (fun r => r.currentValue.isSome && r.capitalInput.isSome), none)
      else ([], some (LoadError.missing_columns missing_cols))

/-- The session state of the app: the stored table `st.session_state.df`
and the flag `st.session_state.data_loaded`. -/
structure SessionState where
  df : List CleanedRow
  data_loaded : Bool
  deriving DecidableEq

/-- The "Load Portfolio Data" button handler (lines 92-105): with a blank
URL only the flag is cleared; otherwise the returned table is stored in the
session and the flag is set to whether it is nonempty. -/
def load_button_handler (s : SessionState) (url_present : Bool)
    (fetched : Option Csv) : SessionState :=
  if url_present then
    let newDf := (load_data fetched).1
    { df := newDf, data_loaded := !newDf.isEmpty }
  else
    { s with data_loaded := false }

/-- The filtered view (lines 130-133): rows whose `Account` is among the
selected accounts and whose `Type` is among the selected types. -/
def filtered_df (df : List CleanedRow)
    (selected_account selected_type : List String) : List CleanedRow :=
  df.filter (fun r =>
    selected_account.contains r.account && selected_type.contains r.type)

/-- Sum of a nullable column over a row list, modelling pandas
`Series.sum()`: NaN entries are skipped and the empty sum is 0. -/
def sumOpt (f : CleanedRow → Option ℚ) (rows : List CleanedRow) : ℚ :=
  (rows.map (fun r => (f r).getD 0)).sum

/-- `total_value = filtered_df["Current Value"].sum()` (line 142). -/
def total_value (rows : List CleanedRow) : ℚ :=
  sumOpt CleanedRow.currentValue rows

/-- `total_pl = filtered_df["P/L"].sum()` (line 143). -/
def total_pl (rows : List CleanedRow) : ℚ :=
  sumOpt CleanedRow.profitLoss rows

/-- `total_capital_input = filtered_df[\x27Capital Input\x27].sum()` (line 144). -/
def total_capital_input (rows : List CleanedRow) : ℚ :=
  sumOpt CleanedRow.capitalInput rows

/-- `invested_capital` (line 147): capital input summed over the rows whose
`Type` is not (case-insensitively) "CASH". -/
def invested_capital (rows : List CleanedRow) : ℚ :=
  sumOpt CleanedRow.capitalInput
    (rows.filter (fun r => !(upper r.type == "CASH")))

/-- `overall_pct_change` (lines 148-151). -/
def overall_pct_change (rows : List CleanedRow) : ℚ :=
  if invested_capital rows > 0 then
    total_pl rows / invested_capital rows * 100
  else 0

/-- The dashboard body outcome: either the warning of line 196 for an empty
filtered view, or the rendered KPIs. -/
inductive RenderOutcome where
  | no_matching_rows
  | dashboard (total_value total_pl total_capital_input
      overall_pct_change : ℚ)
  deriving DecidableEq

/-- The dashboard render pass (lines 129-196) as a step on the session
state: it filters the stored table, and either warns on an empty view or
computes the KPIs; the stored table itself is never assigned. -/
def render_step (s : SessionState) (selected_account selected_type :
    List String) : SessionState × RenderOutcome :=
  let f := filtered_df s.df selected_account selected_type
  if f.isEmpty then (s, RenderOutcome.no_matching_rows)
  else
    (s, RenderOutcome.dashboard (total_value f) (total_pl f)
      (total_capital_input f) (overall_pct_change f))

end Portfolio

namespace Portfolio

/-! Concrete inputs used by the scenario parts of the claims. -/

/-- The cash row of the spec scenario, as a parsed CSV record under the
thirteen columns: `Type` is "Cash", `Current Value` and `Capital Input` are
"$500", `Shares` and `Cost of Shares` are empty strings, every other cell
is empty. -/
def ex_cash_cells : List (Option String) :=
  [none, none, none, none, some "Cash", none,
   some "", some "", none, some "$500", some "$500", none, none]

/-- A one-row CSV holding the cash scenario row. -/
def ex_cash_csv : Csv :=
  { headers := all_expected_cols, rows := [ex_cash_cells] }

/-- The cleaned row `load_data` produces from `ex_cash_cells`. -/
def expected_cash_row : CleanedRow :=
  { account := "Unknown", ticker := none, tag := none, name := none
  , type := "Cash", action := none
  , shares := some 0, costOfShares := some 0, currentPriceOfShares := some 0
  , capitalInput := some 500, currentValue := some 500
  , pctChange := some 0, profitLoss := some 0 }

/-- A one-row CSV whose header row lacks exactly the column "P/L". -/
def ex_missing_pl_csv : Csv :=
  { headers := ["Account", "Ticker", "Tag", "Name", "Type", "Action",
      "Shares", "Cost of Shares", "Current Price of Shares",
      "Capital Input", "Current Value", "% change"]
  , rows := [[some "A", some "T", none, none, some "Stock", none,
      some "1", some "1", some "1", some "1", some "1", some "1"]] }

/-- A one-row CSV with the thirteen required columns in reversed order. -/
def ex_reordered_csv : Csv :=
  { headers := all_expected_cols.reverse, rows := [[]] }

/-- A non-cash row whose `Shares`, `Cost of Shares`, `Current Price of
Shares`, `% change` and `P/L` cells are all unparseable (empty strings),
while `Capital Input` and `Current Value` parse. -/
def ex_stock_csv : Csv :=
  { headers := all_expected_cols
  , rows := [[some "Broker", some "AAPL", none, some "Apple", some "Stock",
      none, some "", some "", some "", some "$90", some "$100", some "",
      some ""]] }

/-- The cleaned row `load_data` produces from `ex_stock_csv`: retained with
null `Shares`, `Cost of Shares`, `Current Price of Shares`, `% change` and
`P/L`. -/
def expected_stock_row : CleanedRow :=
  { account := "Broker", ticker := some "AAPL", tag := none
  , name := some "Apple", type := "Stock", action := none
  , shares := none, costOfShares := none, currentPriceOfShares := none
  , capitalInput := some 90, currentValue := some 100
  , pctChange := none, profitLoss := none }

/-- A session state holding one previously loaded row. -/
def s0 : SessionState := { df := [expected_cash_row], data_loaded := true }

/-- A retained invested (non-cash) row used as a positive-capital input. -/
def inv_row : CleanedRow :=
  { account := "Broker", ticker := some "MSFT", tag := none
  , name := some "Microsoft", type := "Stock", action := none
  , shares := some 2, costOfShares := some 40, currentPriceOfShares := some 55
  , capitalInput := some 80, currentValue := some 110
  , pctChange := some 37, profitLoss := some 30 }

end Portfolio

namespace Portfolio

/-- C1: the cleaned table returned by a successful `load_data` contains a
row exactly when that row results from cleaning one of the input rows
(symbol stripping, numeric coercion, cash zero-filling, "Unknown"
backfilling) and its `Current Value` and `Capital Input` are non-null;
every retained row therefore has non-null numbers in those two fields. -/
theorem retained_iff_numeric (csv : Csv) (rows : List CleanedRow)
    (h : load_data (some csv) = (rows, none)) (r : CleanedRow) :
    r ∈ rows ↔
      r ∈ csv.rows.map (cleanRow csv.headers) ∧
        r.currentValue.isSome ∧ r.capitalInput.isSome := by
  simp only [load_data] at h
  split at h
  · simp at h
  · split at h
    · rw [Prod.mk.injEq] at h
      rw [← h.1]
      simp [List.mem_filter]
    · simp at h

theorem retained_iff_numeric_w :
    expected_cash_row ∈ [expected_cash_row] ↔
      expected_cash_row ∈ ex_cash_csv.rows.map (cleanRow ex_cash_csv.headers)
        ∧ expected_cash_row.currentValue.isSome
        ∧ expected_cash_row.capitalInput.isSome :=
  retained_iff_numeric ex_cash_csv [expected_cash_row]
    (by with_unfolding_all rfl) expected_cash_row

/-- C2: on a row whose `Type` is (case-insensitively, null-safely) "CASH",
cleaning zero-fills null values of exactly `Shares`, `Cost of Shares`,
`Current Price of Shares`, `% change` and `P/L`, while `Capital Input` and
`Current Value` are left as their coerced values; in particular the spec
scenario row with `Type` "Cash", both money fields "$500" and empty
`Shares` and `Cost of Shares` is retained with those two fields 0. -/
theorem cash_rows_zero_filled (headers : List String)
    (cells : List (Option String))
    (hcash : is_cash_type (getCell headers cells "Type") = true) :
    (cleanRow headers cells).shares
        = some ((cleanNumCell "Shares" (getCell headers cells "Shares")).getD 0)
      ∧ (cleanRow headers cells).costOfShares
        = some ((cleanNumCell "Cost of Shares"
            (getCell headers cells "Cost of Shares")).getD 0)
      ∧ (cleanRow headers cells).currentPriceOfShares
        = some ((cleanNumCell "Current Price of Shares"
            (getCell headers cells "Current Price of Shares")).getD 0)
      ∧ (cleanRow headers cells).pctChange
        = some ((cleanNumCell "% change"
            (getCell headers cells "% change")).getD 0)
      ∧ (cleanRow headers cells).profitLoss
        = some ((cleanNumCell "P/L" (getCell headers cells "P/L")).getD 0)
      ∧ (cleanRow headers cells).capitalInput
        = cleanNumCell "Capital Input" (getCell headers cells "Capital Input")
      ∧ (cleanRow headers cells).currentValue
        = cleanNumCell "Current Value" (getCell headers cells "Current Value")
      ∧ load_data (some ex_cash_csv) = ([expected_cash_row], none) := by
  refine ⟨?_, ?_, ?_, ?_, ?_, ?_, ?_, ?_⟩
  all_goals first
    | simp [cleanRow, zero_fill, hcash]
    | with_unfolding_all rfl

theorem cash_rows_zero_filled_w :
    (cleanRow all_expected_cols ex_cash_cells).shares
      = some ((cleanNumCell "Shares"
          (getCell all_expected_cols ex_cash_cells "Shares")).getD 0) :=
  (cash_rows_zero_filled all_expected_cols ex_cash_cells (by decide)).1

/-- C8: `load_data` is a pure, deterministic function of its raw input:
calling it twice on the same input yields identical results, and equal
inputs yield equal cleaned tables. -/
theorem load_data_deterministic :
    (∀ input : Option Csv, load_data input = load_data input)
      ∧ ∀ a b : Option Csv, a = b → load_data a = load_data b :=
  ⟨fun _ => rfl, fun _ _ h => h ▸ rfl⟩

theorem load_data_deterministic_w :
    load_data (some ex_cash_csv) = load_data (some ex_cash_csv) :=
  load_data_deterministic.2 (some ex_cash_csv) (some ex_cash_csv) rfl

/-- C10: the KPI sums skip null entries (a row with a null field
contributes 0 to the corresponding sum instead of poisoning it), and a
retained non-cash row can indeed still carry nulls in `Shares`,
`Cost of Shares`, `Current Price of Shares`, `% change` and `P/L`, as the
concrete stock row shows. -/
theorem null_fields_skipped (r : CleanedRow) (rows : List CleanedRow) :
    (r.profitLoss = none → total_pl (r :: rows) = total_pl rows)
      ∧ (r.currentValue = none → total_value (r :: rows) = total_value rows)
      ∧ (r.capitalInput = none →
          total_capital_input (r :: rows) = total_capital_input rows)
      ∧ load_data (some ex_stock_csv) = ([expected_stock_row], none)
      ∧ is_cash_type (some expected_stock_row.type) = false
      ∧ expected_stock_row.shares = none
      ∧ expected_stock_row.costOfShares = none
      ∧ expected_stock_row.currentPriceOfShares = none
      ∧ expected_stock_row.pctChange = none
      ∧ expected_stock_row.profitLoss = none := by
  refine ⟨?_, ?_, ?_, ?_, ?_, ?_, ?_, ?_, ?_, ?_⟩
  · intro h; simp [total_pl, sumOpt, h]
  · intro h; simp [total_value, sumOpt, h]
  · intro h; simp [total_capital_input, sumOpt, h]
  · with_unfolding_all rfl
  · decide
  all_goals rfl

theorem null_fields_skipped_w :
    total_pl [expected_stock_row] = total_pl [] :=
  (null_fields_skipped expected_stock_row []).1 rfl

end Portfolio

namespace Portfolio

/-- C3: the overall percentage change is `total_pl / invested_capital * 100`
exactly when the invested (non-cash) capital is strictly positive, and is
exactly 0 when it is non-positive; division is total here, so neither
branch can fail. -/
theorem overall_pct_change_branches (rows : List CleanedRow) :
    (invested_capital rows > 0 →
        overall_pct_change rows
          = total_pl rows / invested_capital rows * 100)
      ∧ (invested_capital rows ≤ 0 → overall_pct_change rows = 0) := by
  constructor
  · intro h
    rw [overall_pct_change, if_pos h]
  · intro h
    rw [overall_pct_change, if_neg (not_lt.mpr h)]

theorem overall_pct_change_branches_w :
    overall_pct_change [] = 0
      ∧ overall_pct_change [inv_row]
        = total_pl [inv_row] / invested_capital [inv_row] * 100 :=
  ⟨(overall_pct_change_branches []).2 (le_of_eq (by with_unfolding_all rfl)),
   (overall_pct_change_branches [inv_row]).1 (by
      rw [show invested_capital [inv_row] = 80 from by with_unfolding_all rfl]
      norm_num)⟩

/-- Any failing `load_data` call returns the empty table alongside its
error, mirroring the `return pd.DataFrame()` on every failure path. -/
theorem load_data_error_empty (input : Option Csv)
    (h : (load_data input).2.isSome = true) : (load_data input).1 = [] := by
  cases input with
  | none => rfl
  | some csv =>
    simp only [load_data] at h ⊢
    split at h
    · rename_i hc
      simp [hc]
    · rename_i hc
      split at h
      · simp at h
      · rename_i hc2
        have hno : ¬ ∀ a ∈ all_expected_cols, a ∈ csv.headers := by
          intro hall
          apply hc2
          rw [List.isEmpty_iff]
          apply List.filter_eq_nil_iff.mpr
          intro c hcmem
          simp [hall c hcmem]
        simp [hno]
        split <;> rfl

/-- C4 counterexample: a fetch failure does overwrite the previously
loaded table — the handler stores the empty table `load_data` returned, so
the stored table no longer equals the prior one-row table. -/
theorem load_failure_overwrites_cex :
    (load_button_handler s0 true none).df ≠ s0.df
      ∧ s0.data_loaded = true
      ∧ (load_data none).2 = some LoadError.fetch_failure := by
  refine ⟨?_, rfl, rfl⟩
  decide

/-- C4 amended: on any load failure the button handler replaces the stored
session table with the empty table and sets the data-loaded flag to false;
the prior successful table is not preserved. -/
theorem load_failure_clears_state (s : SessionState) (fetched : Option Csv)
    (hfail : (load_data fetched).2.isSome = true) :
    load_button_handler s true fetched
      = { df := [], data_loaded := false } := by
  have h1 := load_data_error_empty fetched hfail
  simp [load_button_handler, h1]

theorem load_failure_clears_state_w :
    load_button_handler s0 true none = { df := [], data_loaded := false } :=
  load_failure_clears_state s0 none (by decide)

/-- C5: when the parsed CSV is nonempty but lacks required columns, the
load fails with a missing-columns error naming exactly the absent columns
(in the order of the required list) and returns the empty table; in
particular a CSV missing only "P/L" fails naming exactly "P/L". -/
theorem missing_columns_reported (csv : Csv)
    (hne : csv.rows.isEmpty = false)
    (hmiss : (all_expected_cols.filter
        (fun c => !csv.headers.contains c)).isEmpty = false) :
    load_data (some csv)
        = ([], some (LoadError.missing_columns
            (all_expected_cols.filter (fun c => !csv.headers.contains c))))
      ∧ load_data (some ex_missing_pl_csv)
        = ([], some (LoadError.missing_columns ["P/L"])) := by
  constructor
  · have hex : ∃ x ∈ all_expected_cols, x ∉ csv.headers := by
      have := List.isEmpty_eq_false_iff_exists_mem.mp hmiss
      obtain ⟨c, hc⟩ := this
      have hc1 := List.mem_filter.mp hc
      exact ⟨c, hc1.1, by simpa using hc1.2⟩
    simp [load_data, hne, hmiss, hex]
  · decide

theorem missing_columns_reported_w :
    load_data (some ex_missing_pl_csv)
      = ([], some (LoadError.missing_columns ["P/L"])) :=
  (missing_columns_reported ex_missing_pl_csv (by decide) (by decide)).1

/-- C6: the dashboard render pass never changes the stored table, and when
the filtered view is empty it produces the no-matching-rows warning
instead of KPIs; selecting zero accounts always does so. -/
theorem empty_filter_warns (s : SessionState)
    (selected_account selected_type : List String) :
    (render_step s selected_account selected_type).1 = s
      ∧ ((filtered_df s.df selected_account selected_type).isEmpty = true →
          (render_step s selected_account selected_type).2
            = RenderOutcome.no_matching_rows)
      ∧ (render_step s [] selected_type).2
          = RenderOutcome.no_matching_rows := by
  refine ⟨?_, ?_, ?_⟩
  · rw [render_step]
    split <;> rfl
  · intro h
    simp [render_step, h]
  · simp [render_step, filtered_df]

theorem empty_filter_warns_w :
    (render_step s0 [] []).2 = RenderOutcome.no_matching_rows :=
  (empty_filter_warns s0 [] []).2.1 (by decide)

end Portfolio

namespace Portfolio

/-- The account filter options `df["Account"].unique()` (line 115), which
are also the default selection. -/
def accounts_of (df : List CleanedRow) : List String :=
  (df.map (fun r => r.account)).dedup

/-- The type filter options `df["Type"].unique()` (line 122), which are
also the default selection. -/
def types_of (df : List CleanedRow) : List String :=
  (df.map (fun r => r.type)).dedup

/-- C7: `total_value` over a filtered view is the sum of the `Current
Value` entries of its rows (cash rows included, however negative), and
under the default all-inclusive filter it is that sum over every retained
row of the base table. -/
theorem total_value_sums (df : List CleanedRow) (selA selT : List String) :
    total_value (filtered_df df selA selT)
        = ((filtered_df df selA selT).map
            (fun r => (r.currentValue).getD 0)).sum
      ∧ total_value (filtered_df df (accounts_of df) (types_of df))
        = (df.map (fun r => (r.currentValue).getD 0)).sum := by
  constructor
  · rfl
  · have hall : filtered_df df (accounts_of df) (types_of df) = df := by
      apply List.filter_eq_self.mpr
      intro r hr
      rw [Bool.and_eq_true]
      constructor
      · simp [accounts_of, List.mem_dedup]
        exact ⟨r, hr, rfl⟩
      · simp [types_of, List.mem_dedup]
        exact ⟨r, hr, rfl⟩
    rw [hall]
    rfl

/-- C9 counterexample: a CSV whose header row lists the thirteen required
columns in reversed order still loads without error, so the schema check
is not order-sensitive. -/
theorem schema_order_cex :
    (load_data (some ex_reordered_csv)).2 = none
      ∧ ex_reordered_csv.headers ≠ all_expected_cols := by
  exact ⟨by decide, by decide⟩

/-- C9 amended: for a nonempty parsed CSV the schema check is a
case-sensitive but order-insensitive membership test — the load passes it
exactly when every required column name appears verbatim among the
headers, in any order. -/
theorem schema_check_membership (csv : Csv)
    (hne : csv.rows.isEmpty = false) :
    (load_data (some csv)).2 = none ↔
      ∀ c ∈ all_expected_cols, c ∈ csv.headers := by
  have hfe :
      ((all_expected_cols.filter
          (fun c => !csv.headers.contains c)).isEmpty = true)
        ↔ ∀ c ∈ all_expected_cols, c ∈ csv.headers := by
    rw [List.isEmpty_iff, List.filter_eq_nil_iff]
    constructor
    · intro hh c hc
      have h3 := hh c hc
      simpa using h3
    · intro hh c hc
      simp [hh c hc]
  simp only [load_data]
  rw [if_neg (by simp [hne])]
  by_cases h2 :
      (all_expected_cols.filter (fun c => !csv.headers.contains c)).isEmpty
  · rw [if_pos h2]
    exact iff_of_true rfl (hfe.mp h2)
  · rw [if_neg h2]
    exact iff_of_false (by simp) (fun hall => h2 (hfe.mpr hall))

theorem schema_check_membership_w :
    (load_data (some ex_cash_csv)).2 = none :=
  (schema_check_membership ex_cash_csv (by decide)).mpr (by decide)

end Portfolio
